import Mathlib

/-!
Verification of `fetch_articles.py` (scpwiki/news-fetch).

Shallow embedding of the script's data model and operations:
* timestamps are modelled by `Int` via the order-embedding of parsed ISO
  timestamps (`isoparse` is monotone and injective on the strings the API
  returns, so only the order matters for the pagination driver);
* calendar dates for `get_date_span` are modelled by a `Date` structure;
* the network is modelled by a trace: the list of decoded JSON responses
  the server returns to successive POST requests, in order;
* Python `//` (floor division) is `Int.fdiv`, `'\n'.join` is `strJoin "\n"`.
-/

abbrev Timestamp := Int

/-- One element of a top-level `errors` array in a decoded API response. -/
structure CromErrorObj where
  message : String
deriving DecidableEq

/-- The `CromError` exception: it stores the raw error list and the message
computed by `CromError.__init__`. -/
structure CromError where
  errors : List CromErrorObj
  message : Option String
deriving DecidableEq

/-- Python `sep.join(strings)`. -/
def strJoin (sep : String) : List String → String
  | [] => ""
  | [s] => s
  | s :: rest => s ++ sep ++ strJoin sep rest

/-- The three-way branch in `CromError.__init__` (lines 27-32): no message for
an empty error list, the single message for a singleton, a newline-join
otherwise. -/
def cromErrorMessage : List CromErrorObj → Option String
  | [] => none
  | [e] => some e.message
  | errors => some (strJoin "\n" (errors.map CromErrorObj.message))

/-- Constructing a `CromError` from the decoded `errors` array. -/
def mkCromError (errors : List CromErrorObj) : CromError :=
  ⟨errors, cromErrorMessage errors⟩

/-- One entry of a node's `attributions` array. -/
structure Attribution where
  type : String
  userName : String
  isCurrent : Bool
deriving DecidableEq

/-- The `wikidotInfo` block of a node. -/
structure WikidotInfo where
  createdAt : Timestamp
  category : String
  tags : List String
  rating : Int
  voteCount : Int
  revisionCount : Int
deriving DecidableEq

/-- The `node` of an edge. -/
structure Node where
  url : String
  wikidotInfo : WikidotInfo
  attributions : List Attribution
deriving DecidableEq

/-- One raw API edge. -/
structure Edge where
  node : Node
deriving DecidableEq

/-- The normalized record produced by `convert_edge_to_page`. -/
structure Page where
  url : String
  category : String
  rating : Int
  vote_count : Int
  upvote_count : Int
  downvote_count : Int
  created_at : Timestamp
  authors : List String
  tags : List String
  revisions : Int
deriving DecidableEq

/-- `convert_edge_to_page` (lines 83-108). -/
def convert_edge_to_page (edge : Edge) : Page :=
  let node := edge.node
  let wikidot_info := node.wikidotInfo
  let attributions := node.attributions
  let rating := wikidot_info.rating
  let vote_count := wikidot_info.voteCount
  let downvote_count := Int.fdiv (vote_count - rating) 2
  let authors :=
    (attributions.filter (fun attribution =>
      attribution.isCurrent &&
        (attribution.type == "AUTHOR" || attribution.type == "MAINTAINER" ||
          attribution.type == "SUBMITTER"))).map Attribution.userName
  { url := node.url
    category := wikidot_info.category
    rating := rating
    vote_count := vote_count
    upvote_count := rating + downvote_count
    downvote_count := downvote_count
    created_at := wikidot_info.createdAt
    authors := authors
    tags := wikidot_info.tags
    revisions := wikidot_info.revisionCount }

/-- Claim C1: for every raw edge with rating R and voteCount V the record has
downvoteCount = floor((V − R)/2) — stated by the integer floor
characterization 2·d ≤ V − R < 2·d + 2 — upvoteCount = R + downvoteCount, and
hence upvoteCount − downvoteCount = R. -/
theorem convert_edge_vote_split (edge : Edge) :
    2 * (convert_edge_to_page edge).downvote_count
        ≤ edge.node.wikidotInfo.voteCount - edge.node.wikidotInfo.rating
    ∧ edge.node.wikidotInfo.voteCount - edge.node.wikidotInfo.rating
        < 2 * (convert_edge_to_page edge).downvote_count + 2
    ∧ (convert_edge_to_page edge).upvote_count
        = edge.node.wikidotInfo.rating + (convert_edge_to_page edge).downvote_count
    ∧ (convert_edge_to_page edge).upvote_count - (convert_edge_to_page edge).downvote_count
        = edge.node.wikidotInfo.rating := by
  have hd : (convert_edge_to_page edge).downvote_count
      = Int.fdiv (edge.node.wikidotInfo.voteCount - edge.node.wikidotInfo.rating) 2 := rfl
  have hu : (convert_edge_to_page edge).upvote_count
      = edge.node.wikidotInfo.rating + (convert_edge_to_page edge).downvote_count := rfl
  have hd2 : (convert_edge_to_page edge).downvote_count
      = (edge.node.wikidotInfo.voteCount - edge.node.wikidotInfo.rating) / 2 := by
    rw [hd, Int.fdiv_eq_ediv _ (by norm_num)]
  refine ⟨?_, ?_, ?_, ?_⟩ <;> omega

/-- A concrete edge whose voteCount − rating is odd: rating 0, voteCount 1. -/
def oddVoteEdge : Edge :=
  ⟨⟨"http://scp-wiki.wikidot.com/example", ⟨5, "_default", ["tale"], 0, 1, 3⟩, []⟩⟩

/-- Claim C5 counterexample: at rating 0, voteCount 1 (odd difference) the
record violates voteCount = rating + 2·downvoteCount, so the identity does not
hold for all integer inputs. -/
theorem vote_count_identity_fails_odd :
    (convert_edge_to_page oddVoteEdge).vote_count
      ≠ (convert_edge_to_page oddVoteEdge).rating
          + 2 * (convert_edge_to_page oddVoteEdge).downvote_count := by
  decide

/-- Claim C5 (amended): voteCount = rating + 2·downvoteCount + ((voteCount −
rating) mod 2); the exact identity voteCount = rating + 2·downvoteCount holds
precisely when voteCount − rating is even. -/
theorem vote_count_identity (edge : Edge) :
    (convert_edge_to_page edge).vote_count
      = (convert_edge_to_page edge).rating
          + 2 * (convert_edge_to_page edge).downvote_count
          + ((convert_edge_to_page edge).vote_count
              - (convert_edge_to_page edge).rating) % 2
    ∧ (((convert_edge_to_page edge).vote_count
          - (convert_edge_to_page edge).rating) % 2 = 0
        ↔ (convert_edge_to_page edge).vote_count
            = (convert_edge_to_page edge).rating
                + 2 * (convert_edge_to_page edge).downvote_count) := by
  have hr : (convert_edge_to_page edge).rating = edge.node.wikidotInfo.rating := rfl
  have hv : (convert_edge_to_page edge).vote_count = edge.node.wikidotInfo.voteCount := rfl
  have hd : (convert_edge_to_page edge).downvote_count
      = (edge.node.wikidotInfo.voteCount - edge.node.wikidotInfo.rating) / 2 := by
    show Int.fdiv _ 2 = _
    rw [Int.fdiv_eq_ediv _ (by norm_num)]
  omega

/-- The spec's qualifying attribution roles: AUTHOR, MAINTAINER or SUBMITTER. -/
def qualifyingRole (role : String) : Prop :=
  role = "AUTHOR" ∨ role = "MAINTAINER" ∨ role = "SUBMITTER"

instance (role : String) : Decidable (qualifyingRole role) := by
  unfold qualifyingRole; infer_instance

/-- Stated from the spec's words: the ordered display names of exactly those
attributions whose "is current" flag is true and whose role qualifies, with no
de-duplication and no sorting. -/
def authorsSpec (attributions : List Attribution) : List String :=
  (attributions.filter fun a => decide (a.isCurrent = true ∧ qualifyingRole a.type)).map
    Attribution.userName

/-- The spec's authors-filtering example: a current AUTHOR, a non-current
AUTHOR, and a current TRANSLATOR. -/
def attrExampleEdge : Edge :=
  ⟨⟨"http://scp-wiki.wikidot.com/attr-example", ⟨0, "_default", [], 0, 0, 0⟩,
    [⟨"AUTHOR", "Alice", true⟩, ⟨"AUTHOR", "Bob", false⟩, ⟨"TRANSLATOR", "Carol", true⟩]⟩⟩

/-- An edge with a duplicated current AUTHOR attribution, to observe that no
de-duplication happens. -/
def dupAttrEdge : Edge :=
  ⟨⟨"http://scp-wiki.wikidot.com/dup-example", ⟨0, "_default", [], 0, 0, 0⟩,
    [⟨"AUTHOR", "Alice", true⟩, ⟨"MAINTAINER", "Alice", true⟩]⟩⟩

/-- Claim C6: the record's authors field is exactly the display names of the
attributions that are current with role AUTHOR, MAINTAINER or SUBMITTER, in
input order; on the spec's example only the first attribution survives, and a
duplicated qualifying name is kept twice. -/
theorem convert_edge_authors (edge : Edge) :
    (convert_edge_to_page edge).authors = authorsSpec edge.node.attributions
    ∧ (convert_edge_to_page attrExampleEdge).authors = ["Alice"]
    ∧ (convert_edge_to_page dupAttrEdge).authors = ["Alice", "Alice"] := by
  refine ⟨?_, by decide, by decide⟩
  show (edge.node.attributions.filter _).map _ = _
  unfold authorsSpec
  congr 1
  apply List.filter_congr
  intro a _
  by_cases hc : a.isCurrent <;> by_cases h1 : a.type = "AUTHOR" <;>
    by_cases h2 : a.type = "MAINTAINER" <;> by_cases h3 : a.type = "SUBMITTER" <;>
    simp [hc, h1, h2, h3, qualifyingRole]

/-- The uniform newline-join of every reported message. -/
def joinedMessages (errors : List CromErrorObj) : String :=
  strJoin "\n" (errors.map CromErrorObj.message)

theorem cromErrorMessage_eq_join (errors : List CromErrorObj) (h : errors ≠ []) :
    cromErrorMessage errors = some (joinedMessages errors) := by
  match errors with
  | [] => exact absurd rfl h
  | [e] => rfl
  | e1 :: e2 :: rest => rfl

/-- Claim C10: on every non-empty error list the three-way branch of
`CromError.__init__` produces exactly the uniform newline-join of all
messages; the singleton special case is redundant. -/
theorem cromErrorMessage_uniform_join (errors : List CromErrorObj) (h : errors ≠ []) :
    cromErrorMessage errors = some (joinedMessages errors) :=
  cromErrorMessage_eq_join errors h

/-- Claim C10 witness: the singleton branch agrees with the uniform join. -/
theorem cromErrorMessage_uniform_join_witness :
    cromErrorMessage [⟨"only error"⟩] = some (joinedMessages [⟨"only error"⟩]) :=
  cromErrorMessage_uniform_join [⟨"only error"⟩] (by decide)

/-- The `pageInfo` block of a response. -/
structure PageInfo where
  hasNextPage : Bool
  endCursor : Option String
deriving DecidableEq

/-- The `data.pages` payload of a successful response. -/
structure PagesData where
  edges : List Edge
  pageInfo : PageInfo
deriving DecidableEq

/-- A decoded JSON response: either it contains a top-level `errors` array, or
it carries the `data.pages` payload. -/
inductive ApiResponse where
  | errs (errors : List CromErrorObj)
  | data (pages : PagesData)
deriving DecidableEq

/-- `query_one` (lines 172-189) applied to the decoded response of its POST
request: the query construction and the request itself are carried by the
response trace, so only the error check and the data extraction remain. -/
def query_one (resp : ApiResponse) : Except CromError PagesData :=
  match resp with
  | ApiResponse.errs errors => Except.error (mkCromError errors)
  | ApiResponse.data d => Except.ok d

/-- Claim C4 (amended): a response with a top-level errors collection makes the
page fetch fail with the CromError built from it and return no data; for a
non-empty collection the message is the newline-join of all reported messages,
and for an empty collection the message is absent (None), not the empty
string. -/
theorem query_one_errors_fail (errors : List CromErrorObj) :
    query_one (ApiResponse.errs errors) = Except.error (mkCromError errors)
    ∧ (∀ d, query_one (ApiResponse.errs errors) ≠ Except.ok d)
    ∧ (errors ≠ [] → (mkCromError errors).message = some (joinedMessages errors))
    ∧ (errors = [] → (mkCromError errors).message = none) := by
  refine ⟨rfl, ?_, ?_, ?_⟩
  · intro d h
    simp [query_one] at h
  · intro h
    exact cromErrorMessage_eq_join errors h
  · intro h
    subst h
    rfl

/-- Claim C4 witness: a two-error response fails with the newline-joined
message. -/
theorem query_one_errors_fail_witness :
    query_one (ApiResponse.errs [⟨"bad query"⟩, ⟨"timeout"⟩])
        = Except.error (mkCromError [⟨"bad query"⟩, ⟨"timeout"⟩])
    ∧ (mkCromError [⟨"bad query"⟩, ⟨"timeout"⟩]).message
        = some (joinedMessages [⟨"bad query"⟩, ⟨"timeout"⟩]) :=
  ⟨(query_one_errors_fail [⟨"bad query"⟩, ⟨"timeout"⟩]).1,
    (query_one_errors_fail [⟨"bad query"⟩, ⟨"timeout"⟩]).2.2.1 (by decide)⟩

/-- Claim C4 counterexample: on an empty errors collection the fetch still
fails, but the failure message is None — not the empty string the claim
asserts. -/
theorem crom_error_empty_message_is_none :
    query_one (ApiResponse.errs []) = Except.error (mkCromError [])
    ∧ (mkCromError []).message = none
    ∧ (mkCromError []).message ≠ some "" := by
  refine ⟨rfl, rfl, by decide⟩

/-- The inner for-loop of `query_all` (lines 160-167): convert each edge in
order; at the first record whose created_at exceeds end_date, stop (flag true)
with that record discarded; otherwise append the record and continue. -/
def accumulate (end_date : Timestamp) (pages : List Page) : List Edge → List Page × Bool
  | [] => (pages, false)
  | edge :: rest =>
    let page := convert_edge_to_page edge
    if page.created_at > end_date then (pages, true)
    else accumulate end_date (pages ++ [page]) rest

/-- Outcome of running `query_all` against a finite response trace: the loop
exited normally, a fetch raised a CromError, or the trace ended while the loop
still wanted another page. `requests` counts the page requests issued. -/
inductive RunOutcome where
  | done (pages : List Page) (requests : Nat)
  | failed (e : CromError) (requests : Nat)
  | starved (pages : List Page) (requests : Nat)
deriving DecidableEq

/-- The while-loop of `query_all` (lines 152-167), recursing over the response
trace; state is (remaining trace, has_next_page, cursor, pages, requests). -/
def query_all_go (end_date : Timestamp) :
    List ApiResponse → Bool → Option String → List Page → Nat → RunOutcome
  | _, false, _, pages, requests => RunOutcome.done pages requests
  | [], true, _, pages, requests => RunOutcome.starved pages requests
  | resp :: rest, true, _, pages, requests =>
    match query_one resp with
    | Except.error e => RunOutcome.failed e (requests + 1)
    | Except.ok d =>
      let acc := accumulate end_date pages d.edges
      query_all_go end_date rest
        (if acc.2 then false else d.pageInfo.hasNextPage)
        d.pageInfo.endCursor acc.1 (requests + 1)

set_option linter.unusedVariables false in
/-- `query_all` (lines 146-169). `start_date` only parameterizes the query
text sent with each request, which the response trace already accounts for. -/
def query_all (start_date end_date : Timestamp) (responses : List ApiResponse) : RunOutcome :=
  query_all_go end_date responses true none [] 0

/-- The result set visible in an outcome; a failed run surfaces no pages. -/
def outcomePages : RunOutcome → List Page
  | RunOutcome.done pages _ => pages
  | RunOutcome.starved pages _ => pages
  | RunOutcome.failed _ _ => []

theorem accumulate_append_stop (end_date : Timestamp) (pre : List Edge) :
    ∀ (pages : List Page) (edge : Edge) (post : List Edge),
      (convert_edge_to_page edge).created_at > end_date →
      (∀ e ∈ pre, ¬ ((convert_edge_to_page e).created_at > end_date)) →
      accumulate end_date pages (pre ++ edge :: post)
        = (pages ++ pre.map convert_edge_to_page, true) := by
  induction pre with
  | nil =>
    intro pages edge post hover _
    simp [accumulate, hover]
  | cons e pre ih =>
    intro pages edge post hover hpre
    have he : ¬ ((convert_edge_to_page e).created_at > end_date) := hpre e (by simp)
    rw [List.cons_append]
    simp only [accumulate, if_neg he]
    rw [ih (pages ++ [convert_edge_to_page e]) edge post hover
      (fun x hx => hpre x (List.mem_cons_of_mem _ hx))]
    simp

/-- Claim C2: if a fetched page splits as pre ++ [over-boundary edge] ++ post,
with every record of pre inside the boundary, then the run finishes right
there: only pre's records are appended (the boundary record is not), post is
discarded, and exactly this one request was issued — the remaining trace
`rest` is never consulted. -/
theorem query_all_stops_at_boundary (end_date : Timestamp) (cursor : Option String)
    (pages : List Page) (requests : Nat) (d : PagesData) (rest : List ApiResponse)
    (pre post : List Edge) (edge : Edge)
    (hsplit : d.edges = pre ++ edge :: post)
    (hover : (convert_edge_to_page edge).created_at > end_date)
    (hpre : ∀ e ∈ pre, ¬ ((convert_edge_to_page e).created_at > end_date)) :
    query_all_go end_date (ApiResponse.data d :: rest) true cursor pages requests
      = RunOutcome.done (pages ++ pre.map convert_edge_to_page) (requests + 1) := by
  have hacc := accumulate_append_stop end_date pre pages edge post hover hpre
  simp only [query_all_go, query_one]
  rw [hsplit, hacc]
  simp [query_all_go]

/-- Claim C2 witness: a page holding records at timestamps 5, 11, 6 against an
end boundary of 10, with more trace behind it, yields exactly the timestamp-5
record after a single request. -/
theorem query_all_stops_at_boundary_witness :
    query_all_go 10
        [ApiResponse.data
          ⟨[⟨⟨"http://scp-wiki.wikidot.com/a", ⟨5, "_default", [], 1, 1, 1⟩, []⟩⟩,
            ⟨⟨"http://scp-wiki.wikidot.com/b", ⟨11, "_default", [], 1, 1, 1⟩, []⟩⟩,
            ⟨⟨"http://scp-wiki.wikidot.com/c", ⟨6, "_default", [], 1, 1, 1⟩, []⟩⟩],
          ⟨true, some "cursorA"⟩⟩,
        ApiResponse.data ⟨[], ⟨false, none⟩⟩]
        true none [] 0
      = RunOutcome.done
          [convert_edge_to_page ⟨⟨"http://scp-wiki.wikidot.com/a", ⟨5, "_default", [], 1, 1, 1⟩, []⟩⟩] 1 :=
  query_all_stops_at_boundary 10 none [] 0 _ _
    [⟨⟨"http://scp-wiki.wikidot.com/a", ⟨5, "_default", [], 1, 1, 1⟩, []⟩⟩]
    [⟨⟨"http://scp-wiki.wikidot.com/c", ⟨6, "_default", [], 1, 1, 1⟩, []⟩⟩]
    ⟨⟨"http://scp-wiki.wikidot.com/b", ⟨11, "_default", [], 1, 1, 1⟩, []⟩⟩
    rfl (by decide) (by decide)

theorem accumulate_le_end (end_date : Timestamp) (edges : List Edge) :
    ∀ pages : List Page, (∀ p ∈ pages, p.created_at ≤ end_date) →
      ∀ q ∈ (accumulate end_date pages edges).1, q.created_at ≤ end_date := by
  induction edges with
  | nil =>
    intro pages h q hq
    exact h q hq
  | cons e rest ih =>
    intro pages h q hq
    by_cases hc : (convert_edge_to_page e).created_at > end_date
    · simp only [accumulate, if_pos hc] at hq
      exact h q hq
    · simp only [accumulate, if_neg hc] at hq
      refine ih (pages ++ [convert_edge_to_page e]) ?_ q hq
      intro p hp
      rcases List.mem_append.1 hp with h1 | h1
      · exact h p h1
      · simp only [List.mem_singleton] at h1
        subst h1
        exact le_of_not_lt hc

theorem query_all_go_le_end (end_date : Timestamp) (responses : List ApiResponse) :
    ∀ (hnp : Bool) (cursor : Option String) (pages : List Page) (requests : Nat),
      (∀ p ∈ pages, p.created_at ≤ end_date) →
      ∀ q ∈ outcomePages (query_all_go end_date responses hnp cursor pages requests),
        q.created_at ≤ end_date := by
  induction responses with
  | nil =>
    intro hnp cursor pages requests h q hq
    cases hnp <;> simp only [query_all_go, outcomePages] at hq <;> exact h q hq
  | cons resp rest ih =>
    intro hnp cursor pages requests h q hq
    cases hnp
    · simp only [query_all_go, outcomePages] at hq
      exact h q hq
    · cases hr : query_one resp with
      | error e =>
        simp only [query_all_go, hr, outcomePages] at hq
        exact absurd hq (List.not_mem_nil q)
      | ok d =>
        simp only [query_all_go, hr] at hq
        exact ih _ _ _ _ (accumulate_le_end end_date d.edges pages h) q hq

/-- Claim C3 (amended): every record in the pagination driver's result set has
created_at at most the end boundary; the bound at the end is non-strict, and
the start bound is enforced only by the API-side filter, not by the driver. -/
theorem query_all_created_at_le_end (start_date end_date : Timestamp)
    (responses : List ApiResponse) (q : Page)
    (hq : q ∈ outcomePages (query_all start_date end_date responses)) :
    q.created_at ≤ end_date :=
  query_all_go_le_end end_date responses true none [] 0 (by simp) q hq

/-- A concrete edge whose created_at equals the end boundary 10. -/
def edgeAt10 : Edge :=
  ⟨⟨"http://scp-wiki.wikidot.com/at-end", ⟨10, "_default", [], 4, 6, 1⟩, []⟩⟩

/-- Claim C3 witness: an in-range record is in the result set and satisfies
the non-strict bound. -/
theorem query_all_created_at_le_end_witness :
    convert_edge_to_page edgeAt10
        ∈ outcomePages (query_all 0 10 [ApiResponse.data ⟨[edgeAt10], ⟨false, none⟩⟩])
    ∧ (convert_edge_to_page edgeAt10).created_at ≤ 10 :=
  ⟨by decide,
    query_all_created_at_le_end 0 10 [ApiResponse.data ⟨[edgeAt10], ⟨false, none⟩⟩]
      (convert_edge_to_page edgeAt10) (by decide)⟩

/-- Claim C3 counterexample: a record created exactly at the end boundary is
kept by the driver (the loop discards only records strictly beyond the
boundary), so not every returned record has created_at strictly before the
end. -/
theorem query_all_end_boundary_not_strict :
    convert_edge_to_page edgeAt10
        ∈ outcomePages (query_all 0 10 [ApiResponse.data ⟨[edgeAt10], ⟨false, none⟩⟩])
    ∧ ¬ ((convert_edge_to_page edgeAt10).created_at < 10) := by
  refine ⟨by decide, by decide⟩


/-- A value held in a record field / a CSV cell: the records produced by
`convert_edge_to_page` hold strings, integers and string lists. -/
inductive Cell where
  | str (s : String)
  | int (i : Int)
  | list (ss : List String)
deriving DecidableEq

/-- The fixed column schema `keys` of `convert_pages_to_rows` (lines 112-123). -/
def keys : List String :=
  ["url", "category", "rating", "vote_count", "upvote_count", "downvote_count",
    "created_at", "authors", "tags", "revisions"]

/-- Python dict lookup `page[key]` on a record; only the record's ten keys
occur (any other key would be a `KeyError`). -/
def pageField (page : Page) (key : String) : Cell :=
  if key = "url" then Cell.str page.url
  else if key = "category" then Cell.str page.category
  else if key = "rating" then Cell.int page.rating
  else if key = "vote_count" then Cell.int page.vote_count
  else if key = "upvote_count" then Cell.int page.upvote_count
  else if key = "downvote_count" then Cell.int page.downvote_count
  else if key = "created_at" then Cell.int page.created_at
  else if key = "authors" then Cell.list page.authors
  else if key = "tags" then Cell.list page.tags
  else if key = "revisions" then Cell.int page.revisions
  else Cell.str ""

/-- The inner `convert` of `convert_pages_to_rows` (lines 125-129): a list
field is flattened to a single comma-joined string, all else passes through. -/
def convert (field : Cell) : Cell :=
  match field with
  | Cell.list ss => Cell.str (strJoin "," ss)
  | f => f

/-- `convert_pages_to_rows` (lines 111-136): first the schema row, then one
row per record in order. -/
def convert_pages_to_rows (pages : List Page) : List (List Cell) :=
  (keys.map Cell.str)
    :: pages.map (fun page => keys.map (fun key => convert (pageField page key)))

/-- Claim C7: the tabular encoding is exactly the ten-column header row
followed by one row per record in result-set order, with the two
string-sequence fields (authors, tags) flattened to comma-joined cells and all
scalar fields passed through; authors ["A, B", "C"] yields the single cell
"A, B,C". -/
theorem convert_pages_to_rows_spec (pages : List Page) :
    (convert_pages_to_rows pages).head? = some
      [Cell.str "url", Cell.str "category", Cell.str "rating", Cell.str "vote_count",
        Cell.str "upvote_count", Cell.str "downvote_count", Cell.str "created_at",
        Cell.str "authors", Cell.str "tags", Cell.str "revisions"]
    ∧ (convert_pages_to_rows pages).tail = pages.map (fun p =>
        [Cell.str p.url, Cell.str p.category, Cell.int p.rating, Cell.int p.vote_count,
          Cell.int p.upvote_count, Cell.int p.downvote_count, Cell.int p.created_at,
          Cell.str (strJoin "," p.authors), Cell.str (strJoin "," p.tags),
          Cell.int p.revisions])
    ∧ strJoin "," ["A, B", "C"] = "A, B,C" := by
  refine ⟨rfl, ?_, rfl⟩
  simp only [convert_pages_to_rows, List.tail_cons]
  congr 1

/-- What a run of `__main__` (lines 192-214) produces from the response trace:
both output file contents, or an abort with no file written; `starved` marks a
trace too short for the loop (impossible against the real server). -/
inductive MainResult where
  | wrote (jsonRecords : List Page) (csvRows : List (List Cell))
  | aborted (e : CromError)
  | starved
deriving DecidableEq

/-- `__main__` (lines 192-214) after argument parsing: run `query_all`; only
if it returns are `pages-<date>.json` (the record list) and
`pages-<date>.csv` (`convert_pages_to_rows` of it) written; an uncaught
CromError aborts the process before any `open`. -/
def main_run (start_date end_date : Timestamp) (responses : List ApiResponse) : MainResult :=
  match query_all start_date end_date responses with
  | RunOutcome.done pages _ => MainResult.wrote pages (convert_pages_to_rows pages)
  | RunOutcome.failed e _ => MainResult.aborted e
  | RunOutcome.starved _ _ => MainResult.starved

/-- Claim C8: whenever a page fetch fails with a CromError, the run aborts:
neither the JSON nor the CSV content is produced, and no partial result set is
persisted. -/
theorem main_run_aborts_on_failure (start_date end_date : Timestamp)
    (responses : List ApiResponse) (e : CromError) (n : Nat)
    (h : query_all start_date end_date responses = RunOutcome.failed e n) :
    main_run start_date end_date responses = MainResult.aborted e
    ∧ ∀ json csv, main_run start_date end_date responses ≠ MainResult.wrote json csv := by
  constructor
  · simp [main_run, h]
  · intro json csv hw
    rw [main_run, h] at hw
    exact MainResult.noConfusion hw

/-- Claim C8 witness: a first-page error response aborts the run with that
error and no files. -/
theorem main_run_aborts_on_failure_witness :
    query_all 0 10 [ApiResponse.errs [⟨"boom"⟩]]
        = RunOutcome.failed (mkCromError [⟨"boom"⟩]) 1
    ∧ main_run 0 10 [ApiResponse.errs [⟨"boom"⟩]]
        = MainResult.aborted (mkCromError [⟨"boom"⟩]) :=
  ⟨by decide,
    (main_run_aborts_on_failure 0 10 [ApiResponse.errs [⟨"boom"⟩]]
      (mkCromError [⟨"boom"⟩]) 1 (by decide)).1⟩

/-- A calendar date: the model of the parsed ISO date (`isoparse` at UTC). -/
structure Date where
  year : Nat
  month : Nat
  day : Nat
deriving DecidableEq

/-- Gregorian leap year. -/
def isLeapYear (y : Nat) : Bool :=
  (y % 4 == 0 && y % 100 != 0) || (y % 400 == 0)

/-- Length of a Gregorian month. -/
def daysInMonth (y m : Nat) : Nat :=
  if m == 2 then (if isLeapYear y then 29 else 28)
  else if m == 4 || m == 6 || m == 9 || m == 11 then 30
  else 31

/-- `relativedelta(months=+1)` of dateutil: advance the month with year carry,
clamping the day to the last valid day of the target month. -/
def addOneMonth (d : Date) : Date :=
  let m0 := d.month + 1
  let y := if m0 > 12 then d.year + 1 else d.year
  let m := if m0 > 12 then m0 - 12 else m0
  { year := y, month := m, day := min d.day (daysInMonth y m) }

/-- `get_date_span` (lines 139-143): start is the parsed date at UTC, end is
start plus one relativedelta month; both are returned and never mutated. -/
def get_date_span (iso_date : Date) : Date × Date :=
  (iso_date, addOneMonth iso_date)

/-- A valid calendar date. -/
def validDate (d : Date) : Prop :=
  1 ≤ d.month ∧ d.month ≤ 12 ∧ 1 ≤ d.day ∧ d.day ≤ daysInMonth d.year d.month

instance (d : Date) : Decidable (validDate d) := by
  unfold validDate; infer_instance

theorem daysInMonth_ge (y m : Nat) : 28 ≤ daysInMonth y m := by
  unfold daysInMonth
  split
  · split <;> omega
  · split <;> omega

/-- Claim C9: for every valid ISO calendar date the span's start is that date
and its end is a valid date exactly one calendar month later — the
month-of-era advances by one and the day is the start's day clamped to the
target month's length (dateutil's relativedelta rule); January 31 clamps to
February 28. -/
theorem get_date_span_one_month (d : Date) (h : validDate d) :
    (get_date_span d).1 = d
    ∧ validDate (get_date_span d).2
    ∧ (get_date_span d).2.year * 12 + (get_date_span d).2.month
        = d.year * 12 + d.month + 1
    ∧ (get_date_span d).2.day
        = min d.day (daysInMonth (get_date_span d).2.year (get_date_span d).2.month)
    ∧ (get_date_span ⟨2021, 1, 31⟩).2 = ⟨2021, 2, 28⟩ := by
  obtain ⟨h1, h2, h3, h4⟩ := h
  refine ⟨rfl, ?_, ?_, rfl, by decide⟩
  · by_cases hm : d.month + 1 > 12 <;>
      · have hd := daysInMonth_ge (if d.month + 1 > 12 then d.year + 1 else d.year)
          (if d.month + 1 > 12 then d.month + 1 - 12 else d.month + 1)
        simp only [validDate, get_date_span, addOneMonth, hm, if_pos, if_neg, reduceIte]
        simp only [hm, reduceIte] at hd
        omega
  · by_cases hm : d.month + 1 > 12 <;>
      simp only [get_date_span, addOneMonth, hm, reduceIte] <;> omega

/-- Claim C9 witness: for 2021-06-01 the span runs to 2021-07-01. -/
theorem get_date_span_one_month_witness :
    validDate ⟨2021, 6, 1⟩
    ∧ ((get_date_span ⟨2021, 6, 1⟩).1 = ⟨2021, 6, 1⟩
        ∧ validDate (get_date_span ⟨2021, 6, 1⟩).2
        ∧ (get_date_span ⟨2021, 6, 1⟩).2.year * 12 + (get_date_span ⟨2021, 6, 1⟩).2.month
            = 2021 * 12 + 6 + 1
        ∧ (get_date_span ⟨2021, 6, 1⟩).2.day
            = min 1 (daysInMonth (get_date_span ⟨2021, 6, 1⟩).2.year
                (get_date_span ⟨2021, 6, 1⟩).2.month)
        ∧ (get_date_span ⟨2021, 1, 31⟩).2 = ⟨2021, 2, 28⟩) :=
  ⟨by decide, get_date_span_one_month ⟨2021, 6, 1⟩ (by decide)⟩
